import Mathlib

/-!
# LLM_probabilities: the browser client `static/script.js`

A shallow embedding of the page script: the click handler of the generate
button, `displayResponse`, and the two pointer handlers that every token span
gets.  The page is an explicit state record, handlers are functions on it, and
a JavaScript exception is an `Except String` whose string is the `message` of
the thrown error.

Modelling conventions.

* The content of the output container is the list of what the script put
  there.  Assigning markup to `innerHTML` replaces the content by one
  `Node.html` that carries the markup as assigned; the empty markup leaves
  nothing.  `appendChild(span)` adds a `Node.span`.  The nodes the browser
  makes of the content are `renderedChildren`, which runs the markup through
  `parseFragment`, a model of the HTML fragment parser on a subset of HTML.
* A JSON number is the rational value of the double that was parsed.
* The JavaScript built-ins that print and read numbers and JSON text
  (`Number::toString`, `parseFloat`, `JSON.stringify`, `JSON.parse`) are taken
  as the fields of `Builtins`.
* `console.log` does not change the page; of its arguments only the
  evaluation that can throw (`tokens.length`) is kept.
* One run of the click handler is one function application: the awaited
  `fetch` is answered by a `FetchOutcome` given as an argument.
-/

namespace LLMProbabilities

/-! ## JSON values and the JavaScript operations the script applies to them -/

/-- A value produced by `response.json()`.  Objects list their own properties
in property order, with distinct keys.  A number is the exact value of a
finite double; a string is a sequence of Unicode characters. -/
inductive Json where
  | null
  | bool (b : Bool)
  | num (x : ℚ)
  | str (s : String)
  | arr (xs : List Json)
  | obj (kvs : List (String × Json))

/-- The built-ins of the JavaScript host that convert between values and text.
`parseFloat` answers `none` for `NaN`; `jsonParse` answers the message of the
`SyntaxError` when the text is not JSON. -/
structure Builtins where
  numberToString : ℚ → String
  parseFloat : String → Option ℚ
  jsonStringify : Json → String
  jsonParse : String → Except String Json

deriving instance DecidableEq for Except

/-- Number of UTF-16 code units of a string, the `length` of a JavaScript string. -/
def utf16Length (s : String) : Nat :=
  (s.data.map (fun c => if c.val < 0x10000 then 1 else 2)).sum

/-- Property read `v.key` for the property names the script reads
(`response`, `text`, `length`, `token`, `probability`, `top_5`, `detail`).
`none` is `undefined`, as a receiver and as a result.  Reading a property of
`undefined` or `null` throws a `TypeError`. -/
def getProp (v : Option Json) (key : String) : Except String (Option Json) :=
  match v with
  | none => .error ("Cannot read properties of undefined (reading \x27" ++ key ++ "\x27)")
  | some .null => .error ("Cannot read properties of null (reading \x27" ++ key ++ "\x27)")
  | some (.obj kvs) => .ok (kvs.lookup key)
  | some (.arr xs) => .ok (if key = "length" then some (.num xs.length) else none)
  | some (.str s) => .ok (if key = "length" then some (.num (utf16Length s)) else none)
  | some (.num _) => .ok none
  | some (.bool _) => .ok none

/-- ToBoolean: the values that count as true in a condition. -/
def truthy : Option Json → Bool
  | none => false
  | some .null => false
  | some (.bool b) => b
  | some (.num x) => decide (x ≠ 0)
  | some (.str s) => decide (s ≠ "")
  | some (.arr _) => true
  | some (.obj _) => true

/-- The comparison `v === 0`. -/
def strictEqualsZero : Option Json → Bool
  | some (.num x) => decide (x = 0)
  | _ => false

mutual
/-- ToString of a JSON value: what a template literal, `new Error(v)` and a
DOM string attribute make of it.  An array joins its elements with commas,
printing `null` elements as the empty string.  An object prints as
`[object Object]` through the inherited `toString`; an own property
`toString` hides that method and, a JSON value not being callable, the
conversion throws a `TypeError`. -/
def toStr (env : Builtins) : Json → Except String String
  | .null => .ok "null"
  | .bool b => .ok (if b then "true" else "false")
  | .num x => .ok (env.numberToString x)
  | .str s => .ok s
  | .arr xs =>
    match toStrElems env xs with
    | .error err => .error err
    | .ok parts => .ok (String.intercalate "," parts)
  | .obj kvs =>
    if (kvs.lookup "toString").isSome then .error "Cannot convert object to primitive value"
    else .ok "[object Object]"
/-- The elements of an array as `Array.prototype.join` prints them. -/
def toStrElems (env : Builtins) : List Json → Except String (List String)
  | [] => .ok []
  | .null :: xs =>
    match toStrElems env xs with
    | .error err => .error err
    | .ok parts => .ok ("" :: parts)
  | x :: xs =>
    match toStr env x with
    | .error err => .error err
    | .ok part =>
      match toStrElems env xs with
      | .error err => .error err
      | .ok parts => .ok (part :: parts)
end

/-- ToString of a value that may be `undefined`. -/
def toStrOpt (env : Builtins) : Option Json → Except String String
  | none => .ok "undefined"
  | some v => toStr env v

/-! ## `Number.prototype.toFixed` -/

/-- Steps 11.c of `Number.prototype.toFixed` (ECMA-262): pad the digit string
`m` with leading zeros to at least `f + 1` digits and put the point before the
last `f` digits. -/
def insertPoint (f : Nat) (m : String) : String :=
  if f ≠ 0 then
    let k := m.length
    let m := if k ≤ f then String.mk (List.replicate (f + 1 - k) '0') ++ m else m
    let k := if k ≤ f then f + 1 else k
    let a := String.mk (m.data.take (k - f))
    let b := String.mk (m.data.drop (k - f))
    a ++ "." ++ b
  else m

/-- The method `x.toFixed(fractionDigits)` of ECMA-262 on a finite number: sign, then
for a magnitude below `10^21` the integer `n` nearest to `x * 10^f` (the
larger one on a tie) printed with the point inserted, and from `10^21` on
whatever `Number::toString` prints. -/
def toFixed (env : Builtins) (x : ℚ) (fractionDigits : Nat) : String :=
  let s := if x < 0 then "-" else ""
  let x := if x < 0 then -x else x
  if 10 ^ 21 ≤ x then s ++ env.numberToString x
  else
    let n : Nat := ⌊x * 10 ^ fractionDigits + 1 / 2⌋₊
    let m := if n = 0 then "0" else Nat.repr n
    s ++ insertPoint fractionDigits m

/-- The call `parseFloat(text).toFixed(digits)`: `NaN` prints as `NaN`. -/
def parseFloatToFixed (env : Builtins) (text : String) (fractionDigits : Nat) : String :=
  match env.parseFloat text with
  | none => "NaN"
  | some x => toFixed env x fractionDigits

/-- The call `prob.toFixed(digits)` on a value read from parsed JSON: only a
number has the method. -/
def callToFixed (env : Builtins) (prob : Json) (fractionDigits : Nat) : Except String String :=
  match prob with
  | .num x => .ok (toFixed env x fractionDigits)
  | .null => .error "Cannot read properties of null (reading \x27toFixed\x27)"
  | _ => .error "prob.toFixed is not a function"

/-- Whether `s` reads as a number with exactly four digits after the decimal
point: an optional minus sign, at least one digit, a point, four digits and
nothing more. -/
def fourDecimals (s : String) : Bool :=
  let cs := if s.data.head? = some '-' then s.data.drop 1 else s.data
  let a := cs.take (cs.length - 5)
  let b := cs.drop (cs.length - 5)
  decide (5 < cs.length) && a.all Char.isDigit && (b.head? == some '.') &&
    (b.drop 1).all Char.isDigit


/-! ## The page -/

/-- The data attributes the script sets on a token span
(`span.dataset.probability`, `span.dataset.top5`). -/
structure Dataset where
  probability : String
  top5 : String
deriving DecidableEq

/-- A token element made by `displayResponse`.  Its two listeners close over
the span itself and the shared tooltip only, so the span determines them:
they are `spanMousemove` and `spanMouseout`. -/
structure Span where
  textContent : String
  dataset : Dataset
deriving DecidableEq

/-- What the script put into the output container: markup assigned to
`innerHTML`, still to be parsed, or an appended token span. -/
inductive Node where
  | html (markup : String)
  | span (s : Span)
deriving DecidableEq

/-- Whether a node is a token element. -/
def Node.isSpan : Node → Bool
  | .span _ => true
  | .html _ => false

/-- The shared tooltip element: its markup, whether its class list holds
`hidden`, and its inline `left` and `top`. -/
structure Tooltip where
  innerHTML : String
  hidden : Bool
  left : String
  top : String
deriving DecidableEq

/-- The pointer position a `mousemove` event carries, in whole pixels. -/
structure MouseEvent where
  pageX : Int
  pageY : Int
deriving DecidableEq

/-- A call `fetch(url, { method, headers, body: JSON.stringify({ prompt }) })`,
kept by its address, method and the prompt it carries. -/
structure Request where
  url : String
  method : String
  prompt : String
deriving DecidableEq

/-- How the awaited network call settles.  `networkError` is a rejected
`fetch`; otherwise `ok` is `response.ok` and `json` is what
`await response.json()` gives: the parsed body, or the message of the error it
rejects with when the body is not JSON. -/
inductive FetchOutcome where
  | networkError (message : String)
  | response (ok : Bool) (json : Except String Json)

/-- The state of the page the script works on: the text of the prompt input,
whether the loading indicator carries the class `hidden`, the children of the
output container, the tooltip, and the log of the `alert` and `fetch` calls
made so far. -/
structure Page where
  promptInput : String
  loadingHidden : Bool
  responseOutput : List Node
  tooltip : Tooltip
  alerts : List String
  fetches : List Request
deriving DecidableEq

/-- The assignment `element.innerHTML = markup`, as the content it leaves: the
markup as assigned, which the browser parses (see `renderedChildren`). -/
def setInnerHTML (markup : String) : List Node :=
  if markup = "" then [] else [Node.html markup]

/-- Markup of the catch block: the message of the caught error in red. -/
def errorMarkup (message : String) : String :=
  "<p style=\"color: red;\">Error: " ++ message ++ "</p>"

/-- Markup of the plain-text branch of `displayResponse`: the text, then the
orange note that probabilities are missing. -/
def plainMarkup (text : String) : String :=
  "<p>" ++ text ++ "</p><p style=\"color: orange; font-size: 0.9em; margin-top: 10px;\">⚠️ Note: Token probabilities not available for this response.</p>"

/-- Markup of the no-data branch of `displayResponse`. -/
def noDataMarkup : String :=
  "<p style=\"color: red;\">No response data received.</p>"

/-! ## The pointer handlers of a token span -/

/-- The call `Object.entries(v)` on a parsed JSON value. -/
def objectEntries : Json → Except String (List (String × Json))
  | .null => .error "Cannot convert undefined or null to object"
  | .obj kvs => .ok kvs
  | .arr xs => .ok (xs.enum.map (fun p => (toString p.1, p.2)))
  | .str s => .ok (s.data.enum.map (fun p => (toString p.1, Json.str (String.mk [p.2]))))
  | .num _ => .ok []
  | .bool _ => .ok []

/-- The loop `for (const [token, prob] of entries)` of the mousemove
handler: every entry appends one list item to the content built so far. -/
def appendAlternatives (env : Builtins) :
    String → List (String × Json) → Except String String
  | tooltipContent, [] => .ok tooltipContent
  | tooltipContent, (token, prob) :: rest =>
    match callToFixed env prob 4 with
    | .error err => .error err
    | .ok shown =>
      appendAlternatives env (tooltipContent ++ ("<li>" ++ token ++ ": " ++ shown ++ "</li>")) rest

/-- The markup the mousemove handler of `span` builds before it touches the
tooltip (script lines 67 to 75). -/
def tooltipContent (env : Builtins) (span : Span) : Except String String :=
  let probability := parseFloatToFixed env span.dataset.probability 4
  match env.jsonParse span.dataset.top5 with
  | .error err => .error err
  | .ok top5 =>
    match objectEntries top5 with
    | .error err => .error err
    | .ok entries =>
      let tooltipContent := "<strong>Probability:</strong> " ++ probability ++ "<br>"
      let tooltipContent := tooltipContent ++ "<strong>Top 5 Alternatives:</strong><ul>"
      match appendAlternatives env tooltipContent entries with
      | .error err => .error err
      | .ok tooltipContent => .ok (tooltipContent ++ "</ul>")

/-- The mousemove listener of `span` run on the tooltip: the new tooltip, or
the message of the error thrown before the tooltip was written. -/
def spanMousemove (env : Builtins) (span : Span) (e : MouseEvent) (tooltip : Tooltip) :
    Except String Tooltip :=
  match tooltipContent env span with
  | .error err => .error err
  | .ok content =>
    let tooltip := { tooltip with innerHTML := content }
    let tooltip := { tooltip with hidden := false }
    let tooltip := { tooltip with left := toString (e.pageX + 10) ++ "px" }
    let tooltip := { tooltip with top := toString (e.pageY + 10) ++ "px" }
    .ok tooltip

/-- What one mousemove event leaves of the tooltip (`show`): an error thrown
by the listener is not caught by the script and leaves the tooltip as it was. -/
def showTooltip (env : Builtins) (span : Span) (e : MouseEvent) (tooltip : Tooltip) : Tooltip :=
  match spanMousemove env span e tooltip with
  | .ok shown => shown
  | .error _ => tooltip

/-- The mouseout listener of every span (`hide`): `tooltip.classList.add('hidden')`. -/
def spanMouseout (tooltip : Tooltip) : Tooltip :=
  { tooltip with hidden := true }

/-! ## `displayResponse` and the click handler -/

/-- The assignment `span.textContent = v`: `undefined` and `null` give the empty text. -/
def textContentOf (env : Builtins) : Option Json → Except String String
  | none => .ok ""
  | some .null => .ok ""
  | some v => toStr env v

/-- The value `JSON.stringify(v)` as `dataset` stores it: `JSON.stringify(undefined)` is
`undefined`, stored as the text `undefined`. -/
def stringifyOpt (env : Builtins) : Option Json → String
  | none => "undefined"
  | some v => env.jsonStringify v

/-- The body of the `forEach` callback up to `appendChild`: the span made for
one entry of `tokens` (script lines 61 to 64), or the error of reading a
property of a `null` entry. -/
def createSpan (env : Builtins) (tokenData : Json) : Except String Span :=
  match getProp (some tokenData) "token" with
  | .error err => .error err
  | .ok token =>
    match textContentOf env token with
    | .error err => .error err
    | .ok textContent =>
      match getProp (some tokenData) "probability" with
      | .error err => .error err
      | .ok probability =>
        match toStrOpt env probability with
        | .error err => .error err
        | .ok probabilityText =>
          match getProp (some tokenData) "top_5" with
          | .error err => .error err
          | .ok top_5 =>
            .ok { textContent := textContent,
                  dataset := { probability := probabilityText,
                               top5 := stringifyOpt env top_5 } }

/-- The loop `tokens.forEach(tokenData => ...)` over the entries of an array: each
entry appends its span to the output container; an error stops the loop and
leaves the spans appended so far. -/
def forEachToken (env : Builtins) : List Json → Page → Except String Unit × Page
  | [], page => (.ok (), page)
  | tokenData :: rest, page =>
    match createSpan env tokenData with
    | .error err => (.error err, page)
    | .ok span =>
      forEachToken env rest
        { page with responseOutput := page.responseOutput ++ [Node.span span] }

/-- The function `displayResponse(data)` of the script: the result is `ok` or the message of the error
thrown, together with the page as the call leaves it. -/
def displayResponse (env : Builtins) (data : Json) (page : Page) : Except String Unit × Page :=
  let page := { page with responseOutput := setInnerHTML "" }
  match getProp (some data) "response" with
  | .error err => (.error err, page)
  | .ok tokens =>
    -- console.log('Number of tokens received:', tokens.length)
    match getProp tokens "length" with
    | .error err => (.error err, page)
    | .ok length =>
      if !truthy tokens || strictEqualsZero length then
        match getProp (some data) "text" with
        | .error err => (.error err, page)
        | .ok text =>
          if truthy text then
            match toStrOpt env text with
            | .error err => (.error err, page)
            | .ok shown =>
              (.ok (), { page with responseOutput := setInnerHTML (plainMarkup shown) })
          else
            (.ok (), { page with responseOutput := setInnerHTML noDataMarkup })
      else
        match tokens with
        | some (.arr xs) => forEachToken env xs page
        | _ => (.error "tokens.forEach is not a function", page)

/-- The `try` block of the click handler (script lines 19 to 34) once `fetch` has settled. -/
def tryBlock (env : Builtins) (net : FetchOutcome) (page : Page) : Except String Unit × Page :=
  match net with
  | .networkError message => (.error message, page)
  | .response ok json =>
    if !ok then
      match json with
      | .error err => (.error err, page)
      | .ok errorData =>
        match getProp (some errorData) "detail" with
        | .error err => (.error err, page)
        | .ok detail =>
          -- throw new Error(errorData.detail || 'An error occurred.')
          if truthy detail then
            match toStrOpt env detail with
            | .error err => (.error err, page)
            | .ok message => (.error message, page)
          else (.error "An error occurred.", page)
    else
      match json with
      | .error err => (.error err, page)
      | .ok data => displayResponse env data page

/-- Script lines 15 to 25: show the loading indicator, empty the output
container and send the request. -/
def startSubmission (page : Page) (prompt : String) : Page :=
  let page := { page with loadingHidden := false }
  let page := { page with responseOutput := setInnerHTML "" }
  { page with
    fetches := page.fetches ++ [{ url := "/generate", method := "POST", prompt := prompt }] }

/-- The click listener of the generate button, run to its end with the
network call settling as `net`. -/
def generateBtnClick (env : Builtins) (net : FetchOutcome) (page : Page) : Page :=
  let prompt := page.promptInput
  if prompt = "" then
    { page with alerts := page.alerts ++ ["Please enter a prompt."] }
  else
    let page := startSubmission page prompt
    let page :=
      match tryBlock env net page with
      | (.ok _, page) => page
      | (.error message, page) => { page with responseOutput := setInnerHTML (errorMarkup message) }
    { page with loadingHidden := true }


/-! ## The HTML parser on the markup the script assigns

`element.innerHTML = markup` hands the markup to the HTML fragment parser.
`parseFragment` follows the tokenizer and the tree construction of the HTML
standard on a subset of HTML and answers `none` outside it.  The subset: text
without `<`, `&`, U+0000 and U+000D; start tags `<name>` and
`<name attr="value">` in lower case for `p`, `ul`, `li`, `br`, `span` and the
formatting elements `b`, `em`, `i`, `s`, `strong`, `u`; end tags that close
the current node; and end tags of `span` and the formatting elements that
match no open element, which the standard ignores.  The context element (the
output container, the tooltip) is taken to be one whose content is parsed in
the "in body" insertion mode, such as a `div`. -/

/-- A node of the document tree: a text node or an element. -/
inductive Dom where
  | text (data : String)
  | element (name : String) (attrs : List (String × String)) (children : List Dom)

/-- A token of the HTML tokenizer. -/
inductive HtmlToken where
  | text (data : String)
  | startTag (name : String) (attrs : List (String × String))
  | endTag (name : String)
deriving DecidableEq

/-- The states of the HTML tokenizer that the subset reaches, with the text,
tag name, attributes, attribute name and attribute value read so far. -/
inductive TokenizerState where
  | data (text : List Char)
  | tagOpen
  | endTagOpen
  | tagName (closing : Bool) (name : List Char)
  | beforeAttrName (name : List Char) (attrs : List (String × String))
  | attrName (name : List Char) (attrs : List (String × String)) (attr : List Char)
  | beforeAttrValue (name : List Char) (attrs : List (String × String)) (attr : List Char)
  | attrValue (name : List Char) (attrs : List (String × String)) (attr : List Char)
      (value : List Char)
  | afterAttrValue (name : List Char) (attrs : List (String × String))
deriving DecidableEq

/-- A character that the parser takes over into a text node as it is: not
`<`, not `&`, not U+0000 (dropped) and not U+000D (turned into a line feed). -/
def plainChar (c : Char) : Bool :=
  c != '<' && c != '&' && c != '\x00' && c != '\r'

/-- Text made of plain characters only. -/
def plainText (s : String) : Bool :=
  s.data.all plainChar

/-- One character through the tokenizer: the next state and the tokens
emitted so far, or `none` where the markup leaves the subset.  At `<` the
text read so far is emitted, also when it is empty. -/
def tokenizerStep : TokenizerState × List HtmlToken → Char →
    Option (TokenizerState × List HtmlToken)
  | (.data text, out), c =>
    if c = '<' then some (.tagOpen, out ++ [.text (String.mk text)])
    else if plainChar c then some (.data (text ++ [c]), out)
    else none
  | (.tagOpen, out), c =>
    if c = '/' then some (.endTagOpen, out)
    else if c.isLower then some (.tagName false [c], out)
    else none
  | (.endTagOpen, out), c =>
    if c.isLower then some (.tagName true [c], out) else none
  | (.tagName closing name, out), c =>
    if c = '>' then
      some (.data [], out ++ [if closing then .endTag (String.mk name)
        else .startTag (String.mk name) []])
    else if c = ' ' && !closing then some (.beforeAttrName name [], out)
    else if c.isLower || c.isDigit then some (.tagName closing (name ++ [c]), out)
    else none
  | (.beforeAttrName name attrs, out), c =>
    if c.isLower then some (.attrName name attrs [c], out) else none
  | (.attrName name attrs attr, out), c =>
    if c = '=' then some (.beforeAttrValue name attrs attr, out)
    else if c.isLower || c = '-' then some (.attrName name attrs (attr ++ [c]), out)
    else none
  | (.beforeAttrValue name attrs attr, out), c =>
    if c = '"' then some (.attrValue name attrs attr [], out) else none
  | (.attrValue name attrs attr value, out), c =>
    if c = '"' then
      if (attrs.lookup (String.mk attr)).isSome then none
      else some (.afterAttrValue name (attrs ++ [(String.mk attr, String.mk value)]), out)
    else if plainChar c then some (.attrValue name attrs attr (value ++ [c]), out)
    else none
  | (.afterAttrValue name attrs, out), c =>
    if c = '>' then some (.data [], out ++ [.startTag (String.mk name) attrs])
    else if c = ' ' then some (.beforeAttrName name attrs, out)
    else none

/-- The tokenizer run over a sequence of characters. -/
def tokenizerRun : TokenizerState × List HtmlToken → List Char →
    Option (TokenizerState × List HtmlToken)
  | st, [] => some st
  | st, c :: cs =>
    match tokenizerStep st c with
    | none => none
    | some st => tokenizerRun st cs

/-- The tokens of a markup string; the input must end in text (outside a tag). -/
def tokenize (markup : String) : Option (List HtmlToken) :=
  match tokenizerRun (.data [], []) markup.data with
  | some (.data text, out) => some (out ++ [.text (String.mk text)])
  | _ => none

/-- An element on the stack of open elements, with the children it has so far. -/
structure OpenElement where
  name : String
  attrs : List (String × String)
  children : List Dom

/-- Insert characters at the end of a list of children: they extend a text
node that ends the list, and make a new text node otherwise. -/
def appendText (data : String) : List Dom → List Dom
  | [] => [.text data]
  | [.text before] => [.text (before ++ data)]
  | [d] => [d, .text data]
  | d :: rest => d :: appendText data rest

/-- Insert a node as the last child of the current node, which is the
innermost open element, or the root when none is open. -/
def insertNode (node : Dom) : List OpenElement → List Dom → List OpenElement × List Dom
  | [], roots => ([], roots ++ [node])
  | current :: stack, roots =>
    ({ current with children := current.children ++ [node] } :: stack, roots)

/-- Insert characters into the current node. -/
def insertText (data : String) : List OpenElement → List Dom → List OpenElement × List Dom
  | [], roots => ([], appendText data roots)
  | current :: stack, roots =>
    ({ current with children := appendText data current.children } :: stack, roots)

/-- The formatting elements of the subset. -/
def isFormatting (name : String) : Bool :=
  name ∈ ["b", "em", "i", "s", "strong", "u"]

/-- Whether the walk that a `li` start tag makes up the stack of open
elements meets an open `li` before it stops at a `ul` or at the root. -/
def openListItem : List String → Bool
  | [] => false
  | name :: rest =>
    if name = "li" then true
    else if name = "ul" then false
    else openListItem rest

/-- One token through the tree construction ("in body"), on the stack of open
elements (innermost first) and the children of the root.  Start tags of `p`,
`ul` and `li` are taken only where they close no open element; an end tag
closes the current node, or is ignored when it is one of `span` or a
formatting element and no such element is open. -/
def treeStep (token : HtmlToken) (stack : List OpenElement) (roots : List Dom) :
    Option (List OpenElement × List Dom) :=
  let names := stack.map OpenElement.name
  match token with
  | .text data => if data = "" then some (stack, roots) else some (insertText data stack roots)
  | .startTag name attrs =>
    if name = "br" then some (insertNode (.element name attrs []) stack roots)
    else if isFormatting name || name = "span" then
      some ({ name := name, attrs := attrs, children := [] } :: stack, roots)
    else if name = "p" || name = "ul" then
      if "p" ∈ names then none
      else some ({ name := name, attrs := attrs, children := [] } :: stack, roots)
    else if name = "li" then
      if openListItem names || "p" ∈ names then none
      else some ({ name := name, attrs := attrs, children := [] } :: stack, roots)
    else none
  | .endTag name =>
    if isFormatting name || name = "span" || name = "p" || name = "ul" || name = "li" then
      match stack with
      | current :: rest =>
        if current.name = name then
          some (insertNode (.element current.name current.attrs current.children) rest roots)
        else if (isFormatting name || name = "span") && !(name ∈ names) then some (stack, roots)
        else none
      | [] => if isFormatting name || name = "span" then some (stack, roots) else none
    else none

/-- The tree construction run over a sequence of tokens. -/
def treeRun : List HtmlToken → List OpenElement × List Dom →
    Option (List OpenElement × List Dom)
  | [], st => some st
  | token :: rest, (stack, roots) =>
    match treeStep token stack roots with
    | none => none
    | some st => treeRun rest st

/-- The children the fragment parser gives a context element for `markup`;
every element must have been closed by its end tag. -/
def parseFragment (markup : String) : Option (List Dom) :=
  match tokenize markup with
  | none => none
  | some tokens =>
    match treeRun tokens ([], []) with
    | some ([], roots) => some roots
    | _ => none

/-- The tokens of one list item whose content is the text `t`. -/
def itemTokens (t : String) : List HtmlToken :=
  [.text "", .startTag "li" [], .text t, .endTag "li"]

mutual
/-- The text a node shows: its `textContent`. -/
def Dom.textContent : Dom → String
  | .text data => data
  | .element _ _ children => Dom.textContents children
/-- The concatenated text of a list of nodes. -/
def Dom.textContents : List Dom → String
  | [] => ""
  | d :: rest => Dom.textContent d ++ Dom.textContents rest
end

/-- The element a token span is in the document: its two data attributes and
its text. -/
def Span.dom (s : Span) : Dom :=
  .element "span"
    [("data-probability", s.dataset.probability), ("data-top5", s.dataset.top5)]
    (if s.textContent = "" then [] else [.text s.textContent])

/-- The children of the output container as the document holds them: the
parsed markup of an `innerHTML` assignment, and the appended spans. -/
def renderedChildren : List Node → Option (List Dom)
  | [] => some []
  | .html markup :: rest =>
    match parseFragment markup, renderedChildren rest with
    | some nodes, some more => some (nodes ++ more)
    | _, _ => none
  | .span s :: rest =>
    match renderedChildren rest with
    | some more => some (s.dom :: more)
    | none => none

/-! ## Well-formed token records and the sample data of the theorems -/

/-- Whether a JSON value is a well-formed token record: an object whose
`token` is a string, whose `probability` is a number in `[0, 1]` and whose
`top_5` is an object of at most five properties, all numbers. -/
def isTokenRecord : Json → Bool
  | .obj kvs =>
    (match kvs.lookup "token" with
      | some (.str _) => true
      | _ => false) &&
    (match kvs.lookup "probability" with
      | some (.num p) => decide (0 ≤ p ∧ p ≤ 1)
      | _ => false) &&
    (match kvs.lookup "top_5" with
      | some (.obj alternatives) =>
        decide (alternatives.length ≤ 5) &&
          alternatives.all (fun kv => match kv.2 with
            | .num _ => true
            | _ => false)
      | _ => false)
  | _ => false

/-- The `token` of a record, when it is a string. -/
def tokenOf : Json → String
  | .obj kvs =>
    match kvs.lookup "token" with
    | some (.str token) => token
    | _ => ""
  | _ => ""

/-- A `top_5` mapping with numeric values, as the JSON object it is. -/
def alternativesJson (top5 : List (String × ℚ)) : Json :=
  .obj (top5.map (fun kv => (kv.1, Json.num kv.2)))

/-- The page as loaded: nothing rendered, loading indicator and tooltip hidden. -/
def idlePage (prompt : String) : Page :=
  { promptInput := prompt, loadingHidden := true, responseOutput := [],
    tooltip := { innerHTML := "", hidden := true, left := "", top := "" },
    alerts := [], fetches := [] }

/-- The double nearest to 0.9, the value of the JSON number `0.9`. -/
def num0_9 : ℚ := 8106479329266893 / 2 ^ 53

/-- The double nearest to 0.05, the value of the JSON number `0.05`. -/
def num0_05 : ℚ := 3602879701896397 / 2 ^ 56

/-- The double nearest to 0.7, the value of the JSON number `0.7`. -/
def num0_7 : ℚ := 3152519739159347 / 2 ^ 52

/-- The double nearest to 0.2, the value of the JSON number `0.2`. -/
def num0_2 : ℚ := 3602879701896397 / 2 ^ 54

/-- A host tabulated on the values the sample data below holds, where it
answers as JavaScript does: `String(0.9)` is `0.9`, and the three `top_5`
objects print and parse as shown. -/
def sampleHost : Builtins where
  numberToString := fun x =>
    if x = num0_9 then "0.9" else if x = num0_7 then "0.7" else "0"
  parseFloat := fun text =>
    if text = "0.9" then some num0_9 else if text = "0.7" then some num0_7 else none
  jsonStringify := fun v =>
    match v with
    | .obj [("The", .num _), ("A", .num _)] => "\x7b\"The\":0.9,\"A\":0.05\x7d"
    | .obj [(" sky", .num _), (" sun", .num _)] => "\x7b\" sky\":0.7,\" sun\":0.2\x7d"
    | .obj [("The", .num _), ("</s>", .num _)] => "\x7b\"The\":0.9,\"</s>\":0.05\x7d"
    | _ => "null"
  jsonParse := fun text =>
    if text = "\x7b\"The\":0.9,\"A\":0.05\x7d" then
      .ok (.obj [("The", .num num0_9), ("A", .num num0_05)])
    else if text = "\x7b\" sky\":0.7,\" sun\":0.2\x7d" then
      .ok (.obj [(" sky", .num num0_7), (" sun", .num num0_2)])
    else if text = "\x7b\"The\":0.9,\"</s>\":0.05\x7d" then
      .ok (.obj [("The", .num num0_9), ("</s>", .num num0_05)])
    else if text = "null" then .ok .null
    else .error "Unexpected token"

/-- The first token record of the scenario in the specification. -/
def theRecord : Json :=
  .obj [("token", .str "The"), ("probability", .num num0_9),
    ("top_5", .obj [("The", .num num0_9), ("A", .num num0_05)])]

/-- The second token record of the scenario in the specification. -/
def skyRecord : Json :=
  .obj [("token", .str " sky"), ("probability", .num num0_7),
    ("top_5", .obj [(" sky", .num num0_7), (" sun", .num num0_2)])]

/-- The response body of the scenario in the specification, for the prompt `The sky is`. -/
def skyResponse : Json :=
  .obj [("response", .arr [theRecord, skyRecord])]

/-- A token record whose second alternative is the end-of-sequence token `</s>`. -/
def eosRecord : Json :=
  .obj [("token", .str "The"), ("probability", .num num0_9),
    ("top_5", .obj [("The", .num num0_9), ("</s>", .num num0_05)])]

/-! ## Lemmas on decimal digits and `toFixed` -/

theorem digitChar_isDigit (d : Nat) (h : d < 10) : (Nat.digitChar d).isDigit = true := by
  interval_cases d <;> decide

theorem toDigitsCore_isDigit (fuel : Nat) : ∀ (n : Nat) (ds : List Char),
    (∀ c ∈ ds, c.isDigit = true) → ∀ c ∈ Nat.toDigitsCore 10 fuel n ds, c.isDigit = true := by
  induction fuel with
  | zero => intro n ds h; simpa [Nat.toDigitsCore] using h
  | succ fuel ih =>
    intro n ds h
    have hd : (Nat.digitChar (n % 10)).isDigit = true :=
      digitChar_isDigit _ (Nat.mod_lt _ (by norm_num))
    have h2 : ∀ c ∈ Nat.digitChar (n % 10) :: ds, c.isDigit = true := by
      intro c hc
      rcases List.mem_cons.mp hc with rfl | hc
      · exact hd
      · exact h c hc
    unfold Nat.toDigitsCore
    dsimp only
    split
    · exact h2
    · exact ih _ _ h2

theorem repr_isDigit (n : Nat) : ∀ c ∈ (Nat.repr n).data, c.isDigit = true := by
  unfold Nat.repr Nat.toDigits
  simpa [List.asString] using toDigitsCore_isDigit (n + 1) n [] (by simp)

theorem toDigitsCore_ne_nil (fuel : Nat) (n : Nat) (ds : List Char) (h : 0 < fuel) :
    Nat.toDigitsCore 10 fuel n ds ≠ [] := by
  induction fuel generalizing n ds with
  | zero => omega
  | succ fuel ih =>
    unfold Nat.toDigitsCore
    dsimp only
    split
    · simp
    · rcases fuel with _ | fuel
      · simp [Nat.toDigitsCore]
      · exact ih _ _ (by omega)

theorem repr_ne_nil (n : Nat) : (Nat.repr n).data ≠ [] := by
  unfold Nat.repr Nat.toDigits
  simpa [List.asString] using toDigitsCore_ne_nil (n + 1) n [] (by omega)

/-- A sign, then digits `a`, a point and four digits `b` pass `fourDecimals`. -/
theorem fourDecimals_of_parts (neg : Bool) (a b : List Char) (ha : a ≠ [])
    (had : ∀ c ∈ a, c.isDigit = true) (hb : b.length = 4) (hbd : ∀ c ∈ b, c.isDigit = true) :
    fourDecimals (String.mk ((if neg then ['-'] else []) ++ (a ++ '.' :: b))) = true := by
  have hcs : (if ((if neg then ['-'] else []) ++ (a ++ '.' :: b)).head? = some '-'
      then ((if neg then ['-'] else []) ++ (a ++ '.' :: b)).drop 1
      else (if neg then ['-'] else []) ++ (a ++ '.' :: b)) = a ++ '.' :: b := by
    cases neg
    · obtain ⟨c, a', rfl⟩ := List.exists_cons_of_ne_nil ha
      have hc : c.isDigit = true := had c (by simp)
      have hne : c ≠ '-' := by
        rintro rfl
        exact absurd hc (by decide)
      simp [hne]
    · simp
  have hlen : (a ++ '.' :: b).length - 5 = a.length := by
    simp [hb]
  have hapos : 0 < a.length := List.length_pos.mpr ha
  unfold fourDecimals
  simp only [hcs, hlen]
  simp [hb, hapos]
  refine ⟨?_, hbd⟩
  exact had


/-- The point goes before the last four of at least five digits. -/
theorem insertPoint_four (m : String) (hm : m.data ≠ [])
    (hd : ∀ c ∈ m.data, c.isDigit = true) :
    ∃ a b : List Char, insertPoint 4 m = String.mk (a ++ '.' :: b) ∧ a ≠ [] ∧
      (∀ c ∈ a, c.isDigit = true) ∧ b.length = 4 ∧ (∀ c ∈ b, c.isDigit = true) := by
  have key : ∀ (cs : List Char) (j : Nat), j + 4 = cs.length → 1 ≤ j →
      (∀ c ∈ cs, c.isDigit = true) →
      ∃ a b : List Char,
        String.mk (cs.take j) ++ "." ++ String.mk (cs.drop j)
          = String.mk (a ++ '.' :: b) ∧ a ≠ [] ∧
        (∀ c ∈ a, c.isDigit = true) ∧ b.length = 4 ∧ (∀ c ∈ b, c.isDigit = true) := by
    intro cs j hj hj1 hcs
    refine ⟨cs.take j, cs.drop j, ?_, ?_, ?_, ?_, ?_⟩
    · apply String.ext
      simp only [String.data_append]
      rw [List.append_assoc]
      rfl
    · intro h
      have := congrArg List.length h
      rw [List.length_take, List.length_nil] at this
      omega
    · intro c hc
      exact hcs c (List.mem_of_mem_take hc)
    · rw [List.length_drop]
      omega
    · intro c hc
      exact hcs c (List.mem_of_mem_drop hc)
  have hlen : m.length = m.data.length := rfl
  have hpos : 0 < m.data.length := List.length_pos.mpr hm
  unfold insertPoint
  by_cases hk : m.length ≤ 4
  · have h5 : (String.mk (List.replicate (4 + 1 - m.length) '0') ++ m).data.length = 5 := by
      rw [String.data_append, List.length_append, List.length_replicate]
      omega
    have hall : ∀ c ∈ (String.mk (List.replicate (4 + 1 - m.length) '0') ++ m).data,
        c.isDigit = true := by
      intro c hc
      rw [String.data_append, List.mem_append] at hc
      rcases hc with hc | hc
      · have : c = '0' := (List.mem_replicate.mp hc).2
        subst this
        decide
      · exact hd c hc
    have := key _ (4 + 1 - 4) (by omega) (by omega) hall
    simp only [ne_eq, OfNat.ofNat_ne_zero, not_false_eq_true, if_true, hk]
    exact this
  · have := key m.data (m.length - 4) (by omega) (by omega) hd
    simp only [ne_eq, OfNat.ofNat_ne_zero, not_false_eq_true, if_true, hk, if_false]
    exact this

/-- Below `10^21` in magnitude, `toFixed(4)` prints four digits after the point. -/
theorem fourDecimals_toFixed (env : Builtins) (x : ℚ) (h : |x| < 10 ^ 21) :
    fourDecimals (toFixed env x 4) = true := by
  have hform : ∀ (neg : Bool) (m : String), m.data ≠ [] → (∀ c ∈ m.data, c.isDigit = true) →
      fourDecimals ((if neg then "-" else "") ++ insertPoint 4 m) = true := by
    intro neg m hm hd
    obtain ⟨a, b, hab, ha, had, hb, hbd⟩ := insertPoint_four m hm hd
    have := fourDecimals_of_parts neg a b ha had hb hbd
    rw [hab]
    cases neg
    · simpa using this
    · have e : ("-" ++ String.mk (a ++ '.' :: b)) = String.mk (['-'] ++ (a ++ '.' :: b)) := by
        apply String.ext
        simp [String.data_append]
      simpa [e] using this
  have hdigits : ∀ n : Nat, (if n = 0 then "0" else Nat.repr n).data ≠ [] ∧
      ∀ c ∈ (if n = 0 then "0" else Nat.repr n).data, c.isDigit = true := by
    intro n
    by_cases hn : n = 0
    · subst hn
      simp
    · simp only [hn, if_false]
      exact ⟨repr_ne_nil n, repr_isDigit n⟩
  unfold toFixed
  by_cases hx : x < 0
  · have habs : |x| = -x := abs_of_neg hx
    have hlt : ¬ ((10 : ℚ) ^ 21 ≤ -x) := by
      rw [habs] at h
      exact not_le.mpr h
    simp only [hx, if_true, hlt, if_false]
    exact hform true _ (hdigits _).1 (hdigits _).2
  · have habs : |x| = x := abs_of_nonneg (not_lt.mp hx)
    have hlt : ¬ ((10 : ℚ) ^ 21 ≤ x) := by
      rw [habs] at h
      exact not_le.mpr h
    simp only [hx, if_false, hlt]
    exact hform false _ (hdigits _).1 (hdigits _).2

/-- On a tie `toFixed` takes the larger digit string: 0.09375 prints as `0.0938`,
and -0.09375 as `-0.0938`. -/
theorem toFixed_tie (env : Builtins) :
    toFixed env (3 / 32) 4 = "0.0938" ∧ toFixed env (-3 / 32) 4 = "-0.0938" := by
  have h1 : ((3 / 32 : ℚ) < 0) = False := by norm_num
  have h2 : ((10 : ℚ) ^ 21 ≤ 3 / 32) = False := by norm_num
  have h3 : ⌊(3 / 32 : ℚ) * 10 ^ 4 + 1 / 2⌋₊ = 938 := by decide!
  have h4 : ((-3 / 32 : ℚ) < 0) = True := by norm_num
  have h5 : (-(-3 / 32) : ℚ) = 3 / 32 := by norm_num
  constructor
  · simp only [toFixed, h1, h2, h3, if_false]
    decide
  · simp only [toFixed, h4, h5, h2, h3, if_true, if_false]
    decide

/-! ## Lemmas on the handlers -/

theorem errorMarkup_ne_empty (message : String) : errorMarkup message ≠ "" := by
  intro h
  have := congrArg String.length h
  simp only [errorMarkup, String.length_append] at this
  have h0 : 0 < "<p style=\"color: red;\">Error: ".length := by decide
  have h1 : "".length = 0 := rfl
  omega

theorem plainMarkup_ne_empty (text : String) : plainMarkup text ≠ "" := by
  intro h
  have := congrArg String.length h
  simp only [plainMarkup, String.length_append] at this
  have h0 : 0 < "<p>".length := by decide
  have h1 : "".length = 0 := rfl
  omega

theorem setInnerHTML_errorMarkup (message : String) :
    setInnerHTML (errorMarkup message) = [Node.html (errorMarkup message)] := by
  simp [setInnerHTML, errorMarkup_ne_empty]

theorem setInnerHTML_plainMarkup (text : String) :
    setInnerHTML (plainMarkup text) = [Node.html (plainMarkup text)] := by
  simp [setInnerHTML, plainMarkup_ne_empty]

/-- A well-formed record gives a span whose text is its token. -/
theorem createSpan_of_isTokenRecord (env : Builtins) (tokenData : Json)
    (h : isTokenRecord tokenData = true) :
    ∃ span, createSpan env tokenData = .ok span ∧ span.textContent = tokenOf tokenData := by
  cases tokenData with
  | obj kvs =>
    simp only [isTokenRecord, Bool.and_eq_true] at h
    obtain ⟨⟨h1, h2⟩, -⟩ := h
    cases hl : kvs.lookup "token" with
    | none => simp [hl] at h1
    | some v =>
      cases v with
      | str t =>
        cases hp : kvs.lookup "probability" with
        | none => simp [hp] at h2
        | some q =>
          cases q with
          | num x =>
            refine ⟨⟨t, ⟨env.numberToString x, stringifyOpt env (kvs.lookup "top_5")⟩⟩, ?_, ?_⟩
            · simp only [createSpan, getProp, hl, hp, textContentOf, toStrOpt, toStr]
            · simp [tokenOf, hl]
          | _ => simp [hp] at h2
      | _ => simp [hl] at h1
  | _ => simp [isTokenRecord] at h

/-- The loop over well-formed records appends one span per record, in order. -/
theorem forEachToken_of_isTokenRecord (env : Builtins) :
    ∀ (entries : List Json) (page : Page), (∀ e ∈ entries, isTokenRecord e = true) →
      ∃ spans : List Span,
        forEachToken env entries page =
          (.ok (), { page with responseOutput := page.responseOutput ++ spans.map Node.span }) ∧
        spans.map Span.textContent = entries.map tokenOf := by
  intro entries
  induction entries with
  | nil =>
    intro page _
    exact ⟨[], by simp [forEachToken], rfl⟩
  | cons e rest ih =>
    intro page h
    obtain ⟨span, hs, ht⟩ := createSpan_of_isTokenRecord env e (h e (by simp))
    obtain ⟨spans, hrest, htexts⟩ :=
      ih { page with responseOutput := page.responseOutput ++ [Node.span span] }
        (fun x hx => h x (by simp [hx]))
    refine ⟨span :: spans, ?_, ?_⟩
    · simp only [forEachToken, hs, hrest]
      simp
    · simp [ht, htexts]

/-- With a non-empty prompt the handler runs the `try` block on the page that
`startSubmission` leaves, replaces the output by the error notice when the
block throws, and hides the loading indicator. -/
theorem generateBtnClick_of_prompt (env : Builtins) (net : FetchOutcome) (page : Page)
    (hp : page.promptInput ≠ "") :
    generateBtnClick env net page =
      { (match tryBlock env net (startSubmission page page.promptInput) with
          | (.ok _, page) => page
          | (.error message, page) =>
            { page with responseOutput := setInnerHTML (errorMarkup message) }) with
        loadingHidden := true } := by
  unfold generateBtnClick
  simp only [hp, if_false]

/-- The output the handler leaves when the `try` block throws. -/
theorem generateBtnClick_of_error (env : Builtins) (net : FetchOutcome) (page : Page)
    (message : String) (hp : page.promptInput ≠ "")
    (h : (tryBlock env net (startSubmission page page.promptInput)).1 = .error message) :
    (generateBtnClick env net page).responseOutput = [Node.html (errorMarkup message)] := by
  rw [generateBtnClick_of_prompt env net page hp]
  rcases hres : tryBlock env net (startSubmission page page.promptInput) with ⟨result, after⟩
  rw [hres] at h
  simp only at h
  subst h
  simp only [setInnerHTML_errorMarkup]

theorem join_cons (item : String) (items : List String) :
    String.join (item :: items) = item ++ String.join items := by
  apply String.ext
  simp [String.join_eq, String.data_append]

/-- The loop over numeric alternatives appends one list item per entry, in order. -/
theorem appendAlternatives_numeric (env : Builtins) :
    ∀ (top5 : List (String × ℚ)) (content : String),
      appendAlternatives env content (top5.map (fun kv => (kv.1, Json.num kv.2))) =
        .ok (content ++ String.join
          (top5.map (fun kv => "<li>" ++ kv.1 ++ ": " ++ toFixed env kv.2 4 ++ "</li>"))) := by
  intro top5
  induction top5 with
  | nil =>
    intro content
    simp [appendAlternatives, String.join]
  | cons kv rest ih =>
    intro content
    simp only [List.map_cons, appendAlternatives, callToFixed, ih, join_cons]
    simp only [String.append_assoc]

/-! ## Lemmas on the HTML parser -/

theorem tokenizerRun_cons (st : TokenizerState × List HtmlToken) (c : Char) (cs : List Char) :
    tokenizerRun st (c :: cs) = (tokenizerStep st c).bind (fun st => tokenizerRun st cs) := by
  simp only [tokenizerRun]
  cases tokenizerStep st c <;> rfl

theorem tokenizerRun_append (st : TokenizerState × List HtmlToken) (a b : List Char) :
    tokenizerRun st (a ++ b) = (tokenizerRun st a).bind (fun st => tokenizerRun st b) := by
  induction a generalizing st with
  | nil => rfl
  | cons c a ih =>
    simp only [List.cons_append, tokenizerRun_cons]
    cases tokenizerStep st c with
    | none => rfl
    | some st => exact ih st

/-- The tokenizer only adds to the tokens emitted so far. -/
theorem tokenizerStep_frame (state : TokenizerState) (out : List HtmlToken) (c : Char) :
    tokenizerStep (state, out) c =
      (tokenizerStep (state, []) c).map (fun r => (r.1, out ++ r.2)) := by
  cases state <;> simp only [tokenizerStep] <;> split_ifs <;> simp

theorem tokenizerRun_frame (cs : List Char) :
    ∀ (state : TokenizerState) (out : List HtmlToken),
      tokenizerRun (state, out) cs =
        (tokenizerRun (state, []) cs).map (fun r => (r.1, out ++ r.2)) := by
  induction cs with
  | nil => intro state out; simp [tokenizerRun]
  | cons c cs ih =>
    intro state out
    simp only [tokenizerRun_cons]
    rw [tokenizerStep_frame state out c]
    cases h : tokenizerStep (state, []) c with
    | none => rfl
    | some r =>
      obtain ⟨state1, out1⟩ := r
      simp only [Option.map_some', Option.some_bind]
      rw [ih state1 (out ++ out1), ih state1 out1]
      cases tokenizerRun (state1, []) cs with
      | none => rfl
      | some r => simp [List.append_assoc]

/-- Plain characters are gathered into the text being read. -/
theorem tokenizerRun_plain (d : List Char) (hd : d.all plainChar = true) :
    ∀ (text : List Char) (out : List HtmlToken),
      tokenizerRun (.data text, out) d = some (.data (text ++ d), out) := by
  induction d with
  | nil => intro text out; simp [tokenizerRun]
  | cons c d ih =>
    intro text out
    simp only [List.all_cons, Bool.and_eq_true] at hd
    have hc : c ≠ '<' := by
      rintro rfl
      exact absurd hd.1 (by decide)
    have hstep : tokenizerStep (.data text, out) c = some (.data (text ++ [c]), out) := by
      simp only [tokenizerStep, hc, if_false, hd.1, if_true]
    rw [tokenizerRun_cons, hstep, Option.some_bind, ih hd.2]
    simp

/-- Plain text followed by a tag: the text is emitted, then the tokens of the tag. -/
theorem tokenizerRun_text_tag (d tag : List Char) (hd : d.all plainChar = true)
    (text : List Char) (out emitted : List HtmlToken) (state : TokenizerState)
    (htag : tokenizerRun (.tagOpen, []) tag = some (state, emitted)) :
    tokenizerRun (.data text, out) (d ++ '<' :: tag) =
      some (state, out ++ HtmlToken.text (String.mk (text ++ d)) :: emitted) := by
  have hstep : tokenizerStep (.data (text ++ d), out) '<' =
      some (.tagOpen, out ++ [.text (String.mk (text ++ d))]) := by
    simp only [tokenizerStep, if_true]
  rw [tokenizerRun_append, tokenizerRun_plain d hd, Option.some_bind, tokenizerRun_cons, hstep,
    Option.some_bind, tokenizerRun_frame, htag]
  simp

theorem mk_append_ne_empty (text d : List Char) (h : text ≠ []) : String.mk (text ++ d) ≠ "" := by
  intro hempty
  have := congrArg String.data hempty
  simp only [List.append_eq_nil] at this
  exact h this.1

/-- The error notice with a plain message parses to one red paragraph whose
only child is the text `Error: ` followed by the message. -/
theorem parseFragment_errorMarkup (d : String) (hd : plainText d = true) :
    parseFragment (errorMarkup d) =
      some [.element "p" [("style", "color: red;")] [.text ("Error: " ++ d)]] := by
  have hdata : (errorMarkup d).data =
      "<p style=\"color: red;\">Error: ".data ++ (d.data ++ '<' :: "/p>".data) := by
    simp only [errorMarkup, String.data_append]
    rfl
  have hpre : tokenizerRun (.data [], []) "<p style=\"color: red;\">Error: ".data =
      some (.data "Error: ".data, [.text "", .startTag "p" [("style", "color: red;")]]) := by
    decide
  have htag : tokenizerRun (.tagOpen, []) "/p>".data = some (.data [], [.endTag "p"]) := by
    decide
  have htokens : tokenize (errorMarkup d) =
      some [.text "", .startTag "p" [("style", "color: red;")],
        .text (String.mk ("Error: ".data ++ d.data)), .endTag "p", .text ""] := by
    unfold tokenize
    rw [hdata, tokenizerRun_append, hpre, Option.some_bind,
      tokenizerRun_text_tag d.data _ hd _ _ _ _ htag]
    rfl
  have htext : String.mk ("Error: ".data ++ d.data) = "Error: " ++ d := by
    apply String.ext
    simp only [String.data_append]
  have hne : "Error: " ++ d ≠ "" := by
    rw [← htext]
    exact mk_append_ne_empty _ _ (by decide)
  rw [htext] at htokens
  unfold parseFragment
  rw [htokens]
  simp [treeRun, treeStep, hne, insertText, insertNode, appendText, isFormatting]

theorem treeRun_append (a b : List HtmlToken) (st : List OpenElement × List Dom) :
    treeRun (a ++ b) st = (treeRun a st).bind (fun st => treeRun b st) := by
  induction a generalizing st with
  | nil => rfl
  | cons token a ih =>
    obtain ⟨stack, roots⟩ := st
    simp only [List.cons_append, treeRun]
    cases treeStep token stack roots with
    | none => rfl
    | some st => exact ih st

/-- The list items tokenize one after the other. -/
theorem tokenizerRun_items (texts : List String)
    (hplain : ∀ t ∈ texts, plainText t = true) :
    ∀ out : List HtmlToken,
      tokenizerRun (.data [], out)
          (String.join (texts.map (fun t => "<li>" ++ t ++ "</li>"))).data =
        some (.data [], out ++ (texts.map itemTokens).flatten) := by
  induction texts with
  | nil => intro out; simp [String.join, tokenizerRun]
  | cons t texts ih =>
    intro out
    have hopen : tokenizerRun (.tagOpen, []) "li>".data = some (.data [], [.startTag "li" []]) := by
      decide
    have hclose : tokenizerRun (.tagOpen, []) "/li>".data = some (.data [], [.endTag "li"]) := by
      decide
    have hdata : (String.join ((t :: texts).map (fun t => "<li>" ++ t ++ "</li>"))).data =
        ([] ++ '<' :: "li>".data) ++ ((t.data ++ '<' :: "/li>".data) ++
          (String.join (texts.map (fun t => "<li>" ++ t ++ "</li>"))).data) := by
      rw [List.map_cons, join_cons]
      simp only [String.data_append, List.append_assoc]
      rfl
    have h1 := tokenizerRun_text_tag [] "li>".data (by rfl) [] out _ _ hopen
    have h2 := tokenizerRun_text_tag t.data "/li>".data (hplain t (by simp)) []
      (out ++ HtmlToken.text (String.mk ([] ++ [])) :: [HtmlToken.startTag "li" []]) _ _ hclose
    rw [hdata, tokenizerRun_append, h1, Option.some_bind, tokenizerRun_append, h2,
      Option.some_bind, ih (fun x hx => hplain x (by simp [hx]))]
    simp [itemTokens]

/-- The list items are built into `li` children of the open `ul`, in order. -/
theorem treeRun_items (texts : List String) (hne : ∀ t ∈ texts, t ≠ "") :
    ∀ (children roots : List Dom),
      treeRun (texts.map itemTokens).flatten
          ([(⟨"ul", [], children⟩ : OpenElement)], roots) =
        some ([(⟨"ul", [],
            children ++ texts.map (fun t => Dom.element "li" [] [.text t])⟩ : OpenElement)],
          roots) := by
  induction texts with
  | nil => intro children roots; simp [treeRun]
  | cons t texts ih =>
    intro children roots
    have ht : t ≠ "" := hne t (by simp)
    rw [List.map_cons, List.flatten_cons, treeRun_append]
    have hitem : treeRun (itemTokens t)
        ([(⟨"ul", [], children⟩ : OpenElement)], roots) =
        some ([(⟨"ul", [], children ++ [Dom.element "li" [] [.text t]]⟩ : OpenElement)], roots) := by
      simp [itemTokens, treeRun, treeStep, ht, insertText, insertNode, appendText, isFormatting,
        openListItem]
    rw [hitem, Option.some_bind, ih (fun x hx => hne x (by simp [hx]))]
    simp

/-- The tooltip markup with a plain probability text and plain item texts
parses to the probability line, the heading and a `ul` with one `li` per item
text, in order. -/
theorem parseFragment_tooltip (shown : String) (texts : List String)
    (hshown : plainText shown = true)
    (hplain : ∀ t ∈ texts, plainText t = true) (hne : ∀ t ∈ texts, t ≠ "") :
    parseFragment ("<strong>Probability:</strong> " ++ shown ++ "<br>" ++
        "<strong>Top 5 Alternatives:</strong><ul>" ++
        String.join (texts.map (fun t => "<li>" ++ t ++ "</li>")) ++ "</ul>") =
      some [.element "strong" [] [.text "Probability:"], .text (" " ++ shown),
        .element "br" [] [], .element "strong" [] [.text "Top 5 Alternatives:"],
        .element "ul" [] (texts.map (fun t => Dom.element "li" [] [.text t]))] := by
  have hdata : ("<strong>Probability:</strong> " ++ shown ++ "<br>" ++
        "<strong>Top 5 Alternatives:</strong><ul>" ++
        String.join (texts.map (fun t => "<li>" ++ t ++ "</li>")) ++ "</ul>").data =
      "<strong>Probability:</strong> ".data ++
        ((shown.data ++ '<' :: "br><strong>Top 5 Alternatives:</strong><ul>".data) ++
          ((String.join (texts.map (fun t => "<li>" ++ t ++ "</li>"))).data ++
            ([] ++ '<' :: "/ul>".data))) := by
    simp only [String.data_append, List.append_assoc]
    rfl
  have h1 : tokenizerRun (.data [], []) "<strong>Probability:</strong> ".data =
      some (.data " ".data,
        [.text "", .startTag "strong" [], .text "Probability:", .endTag "strong"]) := by
    decide
  have h2 : tokenizerRun (.tagOpen, []) "br><strong>Top 5 Alternatives:</strong><ul>".data =
      some (.data [], [.startTag "br" [], .text "", .startTag "strong" [],
        .text "Top 5 Alternatives:", .endTag "strong", .text "", .startTag "ul" []]) := by
    decide
  have h3 : tokenizerRun (.tagOpen, []) "/ul>".data = some (.data [], [.endTag "ul"]) := by
    decide
  have htext : String.mk (" ".data ++ shown.data) = " " ++ shown := by
    apply String.ext
    simp only [String.data_append]
  have hshownne : " " ++ shown ≠ "" := by
    rw [← htext]
    exact mk_append_ne_empty _ _ (by decide)
  have htokens : tokenize ("<strong>Probability:</strong> " ++ shown ++ "<br>" ++
        "<strong>Top 5 Alternatives:</strong><ul>" ++
        String.join (texts.map (fun t => "<li>" ++ t ++ "</li>")) ++ "</ul>") =
      some (([.text "", .startTag "strong" [], .text "Probability:", .endTag "strong",
          .text (" " ++ shown), .startTag "br" [], .text "", .startTag "strong" [],
          .text "Top 5 Alternatives:", .endTag "strong", .text "", .startTag "ul" []] ++
        (texts.map itemTokens).flatten) ++ [.text "", .endTag "ul", .text ""]) := by
    unfold tokenize
    rw [hdata, tokenizerRun_append, h1, Option.some_bind, tokenizerRun_append,
      tokenizerRun_text_tag shown.data _ hshown _ _ _ _ h2, Option.some_bind,
      tokenizerRun_append, tokenizerRun_items texts hplain, Option.some_bind,
      tokenizerRun_text_tag [] _ (by rfl) _ _ _ _ h3, htext]
    simp
  have hhead : treeRun [.text "", .startTag "strong" [], .text "Probability:", .endTag "strong",
        .text (" " ++ shown), .startTag "br" [], .text "", .startTag "strong" [],
        .text "Top 5 Alternatives:", .endTag "strong", .text "", .startTag "ul" []] ([], []) =
      some ([(⟨"ul", [], []⟩ : OpenElement)],
        [.element "strong" [] [.text "Probability:"], .text (" " ++ shown),
          .element "br" [] [], .element "strong" [] [.text "Top 5 Alternatives:"]]) := by
    simp [treeRun, treeStep, hshownne, insertText, insertNode, appendText, isFormatting]
  unfold parseFragment
  rw [htokens]
  simp only []
  rw [treeRun_append, treeRun_append, hhead, Option.some_bind,
    treeRun_items texts hne, Option.some_bind]
  simp [treeRun, treeStep, insertNode, isFormatting]

theorem plainChar_of_isDigit (c : Char) (h : c.isDigit = true) : plainChar c = true := by
  have h1 : c ≠ '<' := by rintro rfl; exact absurd h (by decide)
  have h2 : c ≠ '&' := by rintro rfl; exact absurd h (by decide)
  have h3 : c ≠ '\x00' := by rintro rfl; exact absurd h (by decide)
  have h4 : c ≠ '\r' := by rintro rfl; exact absurd h (by decide)
  simp [plainChar, h1, h2, h3, h4]

/-- A number printed with four decimals is plain text. -/
theorem plainText_of_fourDecimals (s : String) (h : fourDecimals s = true) :
    plainText s = true := by
  unfold fourDecimals at h
  simp only [Bool.and_eq_true, decide_eq_true_eq, List.all_eq_true, beq_iff_eq] at h
  obtain ⟨⟨⟨-, ha⟩, hb⟩, hbd⟩ := h
  have hcs : ∀ cs : List Char, (∀ c ∈ cs.take (cs.length - 5), c.isDigit = true) →
      (cs.drop (cs.length - 5)).head? = some '.' →
      (∀ c ∈ (cs.drop (cs.length - 5)).drop 1, c.isDigit = true) →
      ∀ c ∈ cs, plainChar c = true := by
    intro cs h1 h2 h3 c hc
    rw [← List.take_append_drop (cs.length - 5) cs, List.mem_append] at hc
    rcases hc with hc | hc
    · exact plainChar_of_isDigit c (h1 c hc)
    · cases hdrop : cs.drop (cs.length - 5) with
      | nil => rw [hdrop] at hc; exact absurd hc (List.not_mem_nil c)
      | cons x rest =>
        rw [hdrop] at hc h2 h3
        simp only [List.head?_cons, Option.some.injEq] at h2
        rcases List.mem_cons.mp hc with rfl | hc
        · rw [h2]; decide
        · exact plainChar_of_isDigit c (h3 c (by simpa using hc))
  unfold plainText
  rw [List.all_eq_true]
  intro c hc
  by_cases hneg : s.data.head? = some '-'
  · simp only [hneg, if_true] at ha hb hbd
    cases hdata : s.data with
    | nil => rw [hdata] at hc; exact absurd hc (List.not_mem_nil c)
    | cons x rest =>
      rw [hdata] at hc hneg ha hb hbd
      simp only [List.head?_cons, Option.some.injEq] at hneg
      simp only [List.drop_succ_cons, List.drop_zero] at ha hb hbd
      rcases List.mem_cons.mp hc with rfl | hc
      · rw [hneg]; decide
      · exact hcs rest ha hb hbd c hc
  · simp only [hneg, if_false] at ha hb hbd
    exact hcs s.data ha hb hbd c hc

theorem plainText_append (a b : String) (ha : plainText a = true) (hb : plainText b = true) :
    plainText (a ++ b) = true := by
  unfold plainText at *
  simp only [String.data_append, List.all_append, ha, hb, Bool.and_self]

/-! ## The claims -/

/-- C1: for a response whose `response` field is a non-empty list of N
well-formed token records, `displayResponse` returns normally and leaves the
output container holding exactly N token spans and nothing else, the text of
the i-th span being the `token` of the i-th record. -/
theorem displayResponse_renders_tokens (env : Builtins) (data : Json) (page : Page)
    (entries : List Json)
    (hresponse : getProp (some data) "response" = .ok (some (.arr entries)))
    (hne : entries ≠ [])
    (hrecords : ∀ e ∈ entries, isTokenRecord e = true) :
    ∃ spans : List Span,
      displayResponse env data page =
        (.ok (), { page with responseOutput := spans.map Node.span }) ∧
      spans.length = entries.length ∧
      spans.map Span.textContent = entries.map tokenOf := by
  obtain ⟨spans, hloop, htexts⟩ :=
    forEachToken_of_isTokenRecord env entries
      { page with responseOutput := setInnerHTML "" } hrecords
  refine ⟨spans, ?_, ?_, htexts⟩
  · obtain ⟨e, rest, rfl⟩ := List.exists_cons_of_ne_nil hne
    have hlength : getProp (some (Json.arr (e :: rest))) "length"
        = .ok (some (.num ((e :: rest).length : ℕ))) := by
      simp [getProp]
    have hpos : ¬ (((e :: rest).length : ℕ) : ℚ) = 0 := by
      simp only [List.length_cons, Nat.cast_add, Nat.cast_one]
      positivity
    unfold displayResponse
    simp only [hresponse, hlength, truthy, strictEqualsZero, hloop, hpos, decide_False,
      Bool.not_true, Bool.or_self, Bool.false_eq_true, if_false]
    simp [setInnerHTML]
  · have := congrArg List.length htexts
    simpa using this

/-- C1 witness: the scenario of the specification renders the two spans `The` and ` sky`. -/
theorem displayResponse_renders_tokens_witness :
    ∃ spans : List Span,
      displayResponse sampleHost skyResponse (idlePage "The sky is") =
        (.ok (), { idlePage "The sky is" with responseOutput := spans.map Node.span }) ∧
      spans.length = [theRecord, skyRecord].length ∧
      spans.map Span.textContent = [theRecord, skyRecord].map tokenOf :=
  displayResponse_renders_tokens sampleHost skyResponse (idlePage "The sky is")
    [theRecord, skyRecord] (by rfl) (by simp) (by
      intro e he
      simp only [List.mem_cons, List.mem_singleton, List.not_mem_nil, or_false] at he
      rcases he with rfl | rfl <;> decide!)

/-- C2: on the body `{ "text": "hello" }`, which has no `response` field,
`displayResponse` throws at `tokens.length` before it reaches the plain-text
branch, and the click handler ends with the error notice of that exception in
the output container: the text `hello` and the note on missing probabilities
are not rendered.  With `response` present and empty the same text is
rendered as plain text with the note. -/
theorem displayResponse_text_only_throws (env : Builtins) (page : Page) :
    displayResponse env (.obj [("text", .str "hello")]) page =
      (.error "Cannot read properties of undefined (reading \x27length\x27)",
        { page with responseOutput := [] }) ∧
    (generateBtnClick env (.response true (.ok (.obj [("text", .str "hello")])))
        { page with promptInput := "The sky is" }).responseOutput =
      [Node.html "<p style=\"color: red;\">Error: Cannot read properties of undefined (reading \x27length\x27)</p>"] ∧
    [Node.html "<p style=\"color: red;\">Error: Cannot read properties of undefined (reading \x27length\x27)</p>"]
      ≠ [Node.html (plainMarkup "hello")] ∧
    displayResponse env (.obj [("response", .arr []), ("text", .str "hello")]) page =
      (.ok (), { page with responseOutput := [Node.html (plainMarkup "hello")] }) := by
  have h1 : displayResponse env (.obj [("text", .str "hello")]) page =
      (.error "Cannot read properties of undefined (reading \x27length\x27)",
        { page with responseOutput := [] }) := by
    have hr : getProp (some (Json.obj [("text", Json.str "hello")])) "response" = .ok none := by
      rfl
    have hl : getProp none "length"
        = .error "Cannot read properties of undefined (reading \x27length\x27)" := by
      rfl
    unfold displayResponse
    simp only [hr, hl]
    simp [setInnerHTML]
  refine ⟨h1, ?_, by decide, ?_⟩
  swap
  · have hr : getProp (some (Json.obj [("response", .arr []), ("text", Json.str "hello")]))
        "response" = .ok (some (.arr [])) := by
      rfl
    have hl : getProp (some (Json.arr [])) "length" = .ok (some (.num ((0 : ℕ) : ℚ))) := by
      simp [getProp]
    have ht : getProp (some (Json.obj [("response", .arr []), ("text", Json.str "hello")]))
        "text" = .ok (some (.str "hello")) := by
      rfl
    have hs : ("hello" = "") = False := by decide
    unfold displayResponse
    simp only [hr, hl, ht, truthy, strictEqualsZero, toStrOpt, toStr, setInnerHTML_plainMarkup]
    simp [hs]
  have h2 : ("The sky is" = "") = False := by decide
  have h3 := setInnerHTML_errorMarkup "Cannot read properties of undefined (reading \x27length\x27)"
  unfold generateBtnClick tryBlock
  simp only [h2, if_false, Bool.not_true, Bool.false_eq_true]
  unfold displayResponse
  have hr : getProp (some (Json.obj [("text", Json.str "hello")])) "response" = .ok none := by
    rfl
  have hl : getProp none "length"
      = .error "Cannot read properties of undefined (reading \x27length\x27)" := by
    rfl
  simp only [hr, hl, h3]
  rfl

/-- C3: for a response whose `response` is the empty list and whose `text` is
absent or the empty string, `displayResponse` returns normally and leaves the
output container holding the single notice `No response data received.`, and
no token span. -/
theorem displayResponse_no_data (env : Builtins) (data : Json) (page : Page)
    (hresponse : getProp (some data) "response" = .ok (some (.arr [])))
    (htext : getProp (some data) "text" = .ok none ∨
      getProp (some data) "text" = .ok (some (.str ""))) :
    displayResponse env data page =
      (.ok (), { page with responseOutput :=
        [Node.html "<p style=\"color: red;\">No response data received.</p>"] }) ∧
    ((displayResponse env data page).2.responseOutput.filter Node.isSpan) = [] := by
  have hlength : getProp (some (Json.arr [])) "length" = .ok (some (.num ((0 : ℕ) : ℚ))) := by
    simp [getProp]
  have h : displayResponse env data page =
      (.ok (), { page with responseOutput :=
        [Node.html "<p style=\"color: red;\">No response data received.</p>"] }) := by
    unfold displayResponse
    rcases htext with htext | htext
    · simp only [hresponse, hlength, htext, truthy, strictEqualsZero]
      simp [setInnerHTML, noDataMarkup]
    · simp only [hresponse, hlength, htext, truthy, strictEqualsZero]
      simp [setInnerHTML, noDataMarkup]
  refine ⟨h, ?_⟩
  rw [h]
  rfl

/-- C3 witness: the bodies `{ "response": [], "text": "" }` and `{ "response": [] }`. -/
theorem displayResponse_no_data_witness :
    (displayResponse sampleHost (.obj [("response", .arr []), ("text", .str "")])
        (idlePage "The sky is") =
      (.ok (), { idlePage "The sky is" with responseOutput :=
        [Node.html "<p style=\"color: red;\">No response data received.</p>"] }) ∧
    ((displayResponse sampleHost (.obj [("response", .arr []), ("text", .str "")])
        (idlePage "The sky is")).2.responseOutput.filter Node.isSpan) = []) ∧
    (displayResponse sampleHost (.obj [("response", .arr [])]) (idlePage "The sky is") =
      (.ok (), { idlePage "The sky is" with responseOutput :=
        [Node.html "<p style=\"color: red;\">No response data received.</p>"] }) ∧
    ((displayResponse sampleHost (.obj [("response", .arr [])])
        (idlePage "The sky is")).2.responseOutput.filter Node.isSpan) = []) :=
  ⟨displayResponse_no_data sampleHost (.obj [("response", .arr []), ("text", .str "")])
      (idlePage "The sky is") (by rfl) (Or.inr (by rfl)),
   displayResponse_no_data sampleHost (.obj [("response", .arr [])])
      (idlePage "The sky is") (by rfl) (Or.inl (by rfl))⟩

/-- C4, as stated, fails: for status 400 with the body
`{ "detail": "Invalid token </s>" }` the handler assigns the detail unescaped
inside the error paragraph, the parser ignores the stray end tag `</s>`, and
the container holds a red paragraph whose text is `Error: Invalid token `:
the message shown does not contain the detail verbatim. -/
theorem server_detail_with_markup_not_verbatim :
    (generateBtnClick sampleHost
        (.response false (.ok (.obj [("detail", .str "Invalid token </s>")])))
        (idlePage "The sky is")).responseOutput =
      [Node.html "<p style=\"color: red;\">Error: Invalid token </s></p>"] ∧
    renderedChildren (generateBtnClick sampleHost
        (.response false (.ok (.obj [("detail", .str "Invalid token </s>")])))
        (idlePage "The sky is")).responseOutput =
      some [.element "p" [("style", "color: red;")] [.text "Error: Invalid token "]] ∧
    Dom.textContents [.element "p" [("style", "color: red;")] [.text "Error: Invalid token "]] =
      "Error: Invalid token " ∧
    ¬ ("Invalid token </s>".data <:+: "Error: Invalid token ".data) := by
  refine ⟨by decide, by rfl, by decide, by decide⟩

/-- C4, amended: for a non-2xx response whose JSON body carries a non-empty
`detail` string d without the characters `<`, `&`, U+0000 and U+000D, the
click handler (prompt non-empty) ends with the output container holding a
single element, a red paragraph whose text is `Error: ` followed by d
verbatim, with no token span, and with the loading indicator hidden. -/
theorem plain_server_detail_surfaced (env : Builtins) (page : Page) (body : Json) (d : String)
    (hp : page.promptInput ≠ "")
    (hdetail : getProp (some body) "detail" = .ok (some (.str d)))
    (hd : d ≠ "")
    (hplain : plainText d = true) :
    (generateBtnClick env (.response false (.ok body)) page).responseOutput =
      [Node.html ("<p style=\"color: red;\">Error: " ++ d ++ "</p>")] ∧
    renderedChildren (generateBtnClick env (.response false (.ok body)) page).responseOutput =
      some [.element "p" [("style", "color: red;")] [.text ("Error: " ++ d)]] ∧
    (generateBtnClick env (.response false (.ok body)) page).responseOutput.filter Node.isSpan
      = [] ∧
    (generateBtnClick env (.response false (.ok body)) page).loadingHidden = true := by
  have hfail : (tryBlock env (.response false (.ok body))
      (startSubmission page page.promptInput)).1 = .error d := by
    unfold tryBlock
    simp only [Bool.not_false, if_true, hdetail, truthy, toStrOpt, toStr]
    simp [hd]
  have hout := generateBtnClick_of_error env _ page d hp hfail
  refine ⟨hout, ?_, ?_, ?_⟩
  · rw [hout]
    simp only [renderedChildren, parseFragment_errorMarkup d hplain]
    rfl
  · rw [hout]
    rfl
  · rw [generateBtnClick_of_prompt env _ page hp]

/-- C4 witness: status 400 with the body `{ "detail": "prompt too long" }`. -/
theorem plain_server_detail_surfaced_witness :
    (generateBtnClick sampleHost (.response false (.ok (.obj [("detail", .str "prompt too long")])))
        (idlePage "The sky is")).responseOutput =
      [Node.html ("<p style=\"color: red;\">Error: " ++ "prompt too long" ++ "</p>")] ∧
    renderedChildren (generateBtnClick sampleHost
        (.response false (.ok (.obj [("detail", .str "prompt too long")])))
        (idlePage "The sky is")).responseOutput =
      some [.element "p" [("style", "color: red;")] [.text ("Error: " ++ "prompt too long")]] ∧
    (generateBtnClick sampleHost (.response false (.ok (.obj [("detail", .str "prompt too long")])))
        (idlePage "The sky is")).responseOutput.filter Node.isSpan = [] ∧
    (generateBtnClick sampleHost (.response false (.ok (.obj [("detail", .str "prompt too long")])))
        (idlePage "The sky is")).loadingHidden = true :=
  plain_server_detail_surfaced sampleHost (idlePage "The sky is")
    (.obj [("detail", .str "prompt too long")]) "prompt too long" (by decide) (by rfl) (by decide)
    (by decide)

/-- C5, as stated, fails: for a non-2xx response whose body is not JSON, so
that `response.json()` rejects with the message
`Unexpected token < in JSON at position 0`, the message surfaced is that text
of the JSON reader and not `An error occurred.`. -/
theorem unparseable_error_body_surfaces_reader_text :
    (generateBtnClick sampleHost
        (.response false (.error "Unexpected token < in JSON at position 0"))
        (idlePage "The sky is")).responseOutput =
      [Node.html "<p style=\"color: red;\">Error: Unexpected token < in JSON at position 0</p>"] ∧
    (generateBtnClick sampleHost
        (.response false (.error "Unexpected token < in JSON at position 0"))
        (idlePage "The sky is")).responseOutput ≠
      [Node.html "<p style=\"color: red;\">Error: An error occurred.</p>"] := by
  constructor <;> decide

/-- C5, amended: for a non-2xx response whose body parses to a JSON value other
than `null` that has no `detail`, or a `detail` that counts as false (such as
the empty string), the message surfaced is the fixed text
`An error occurred.`, whatever else the body holds; when the body fails to
parse, the message surfaced is the error text of the JSON reader. -/
theorem error_without_detail (env : Builtins) (page : Page) (body : Json)
    (detail : Option Json) (readerMessage : String)
    (hp : page.promptInput ≠ "")
    (hdetail : getProp (some body) "detail" = .ok detail)
    (hfalse : truthy detail = false) :
    (generateBtnClick env (.response false (.ok body)) page).responseOutput =
      [Node.html "<p style=\"color: red;\">Error: An error occurred.</p>"] ∧
    (generateBtnClick env (.response false (.error readerMessage)) page).responseOutput =
      [Node.html ("<p style=\"color: red;\">Error: " ++ readerMessage ++ "</p>")] := by
  constructor
  · have hfail : (tryBlock env (.response false (.ok body))
        (startSubmission page page.promptInput)).1 = .error "An error occurred." := by
      unfold tryBlock
      simp only [Bool.not_false, if_true, hdetail, hfalse, Bool.false_eq_true, if_false]
    exact generateBtnClick_of_error env _ page _ hp hfail
  · have hfail : (tryBlock env (.response false (.error readerMessage))
        (startSubmission page page.promptInput)).1 = .error readerMessage := by
      unfold tryBlock
      simp only [Bool.not_false, if_true]
    exact generateBtnClick_of_error env _ page _ hp hfail

/-- C5 witness: status 500 with the body `{}`, and with a body that is not JSON. -/
theorem error_without_detail_witness :
    (generateBtnClick sampleHost (.response false (.ok (.obj []))) (idlePage "The sky is")).responseOutput =
      [Node.html "<p style=\"color: red;\">Error: An error occurred.</p>"] ∧
    (generateBtnClick sampleHost (.response false (.error "Unexpected end of JSON input"))
        (idlePage "The sky is")).responseOutput =
      [Node.html ("<p style=\"color: red;\">Error: " ++ "Unexpected end of JSON input" ++ "</p>")] :=
  error_without_detail sampleHost (idlePage "The sky is") (.obj []) none
    "Unexpected end of JSON input" (by decide) (by rfl) (by rfl)

/-- C6: for every submission with a non-empty prompt, however the network call
settles (rejected `fetch`, any status, a body that parses or not) and whether
or not `displayResponse` throws, the loading indicator is hidden when the
click handler finishes. -/
theorem loading_hidden_after_submission (env : Builtins) (net : FetchOutcome) (page : Page)
    (hp : page.promptInput ≠ "") :
    (generateBtnClick env net page).loadingHidden = true := by
  rw [generateBtnClick_of_prompt env net page hp]

/-- C6 witness: a 2xx body whose second entry is `null`, on which
`displayResponse` throws inside the loop. -/
theorem loading_hidden_after_submission_witness :
    (generateBtnClick sampleHost (.response true (.ok (.obj [("response", .arr [theRecord, .null])])))
        (idlePage "The sky is")).loadingHidden = true :=
  loading_hidden_after_submission sampleHost _ (idlePage "The sky is") (by decide)

/-- C7: with an empty prompt the click handler issues no network call and
leaves the content of the output container, the visibility of the loading
indicator and the tooltip unchanged; it only raises the notice
`Please enter a prompt.`. -/
theorem empty_prompt_changes_nothing (env : Builtins) (net : FetchOutcome) (page : Page)
    (hp : page.promptInput = "") :
    (generateBtnClick env net page).fetches = page.fetches ∧
    (generateBtnClick env net page).responseOutput = page.responseOutput ∧
    (generateBtnClick env net page).loadingHidden = page.loadingHidden ∧
    (generateBtnClick env net page).tooltip = page.tooltip ∧
    (generateBtnClick env net page).alerts = page.alerts ++ ["Please enter a prompt."] := by
  unfold generateBtnClick
  simp [hp]

/-- C7 witness: after the scenario response was rendered, a click with the
prompt emptied keeps the two rendered spans. -/
theorem empty_prompt_changes_nothing_witness :
    ({ generateBtnClick sampleHost (.response true (.ok skyResponse)) (idlePage "The sky is") with
        promptInput := "" }).responseOutput.length = 2 ∧
    (generateBtnClick sampleHost (.networkError "Failed to fetch")
        { generateBtnClick sampleHost (.response true (.ok skyResponse)) (idlePage "The sky is") with
          promptInput := "" }).responseOutput =
      ({ generateBtnClick sampleHost (.response true (.ok skyResponse)) (idlePage "The sky is") with
        promptInput := "" }).responseOutput :=
  ⟨by decide!,
   (empty_prompt_changes_nothing sampleHost (.networkError "Failed to fetch")
      { generateBtnClick sampleHost (.response true (.ok skyResponse)) (idlePage "The sky is") with
        promptInput := "" } rfl).2.1⟩

/-- C9: whenever the `try` block of a submission (prompt non-empty) ends by
throwing, be it a rejected `fetch`, a non-2xx status, a body that does not
parse, or `displayResponse` throwing after it appended some spans, the output
container finally holds exactly one node, the error message: its markup is
not empty and there is no token span. -/
theorem failure_leaves_one_error_message (env : Builtins) (net : FetchOutcome) (page : Page)
    (message : String) (hp : page.promptInput ≠ "")
    (hfail : (tryBlock env net (startSubmission page page.promptInput)).1 = .error message) :
    (generateBtnClick env net page).responseOutput =
      [Node.html ("<p style=\"color: red;\">Error: " ++ message ++ "</p>")] ∧
    "<p style=\"color: red;\">Error: " ++ message ++ "</p>" ≠ "" ∧
    (generateBtnClick env net page).responseOutput.filter Node.isSpan = [] := by
  have hout := generateBtnClick_of_error env net page message hp hfail
  refine ⟨hout, errorMarkup_ne_empty message, ?_⟩
  rw [hout]
  rfl

/-- C9 witness: a 2xx body whose second entry is `null`; the `try` block throws
with one span already appended, and the handler leaves the error message alone. -/
theorem failure_leaves_one_error_message_witness :
    ((tryBlock sampleHost (.response true (.ok (.obj [("response", .arr [theRecord, .null])])))
        (startSubmission (idlePage "The sky is") "The sky is")).2.responseOutput.filter
          Node.isSpan).length = 1 ∧
    ((generateBtnClick sampleHost
        (.response true (.ok (.obj [("response", .arr [theRecord, .null])])))
        (idlePage "The sky is")).responseOutput =
      [Node.html ("<p style=\"color: red;\">Error: " ++
        "Cannot read properties of null (reading \x27token\x27)" ++ "</p>")] ∧
    "<p style=\"color: red;\">Error: " ++
        "Cannot read properties of null (reading \x27token\x27)" ++ "</p>" ≠ "" ∧
    (generateBtnClick sampleHost
        (.response true (.ok (.obj [("response", .arr [theRecord, .null])])))
        (idlePage "The sky is")).responseOutput.filter Node.isSpan = []) :=
  ⟨by decide!,
   failure_leaves_one_error_message sampleHost
    (.response true (.ok (.obj [("response", .arr [theRecord, .null])])))
    (idlePage "The sky is") "Cannot read properties of null (reading \x27token\x27)"
    (by decide) (by decide!)⟩

/-- C8, as stated, fails: the record with probability 0.9 and the `top_5`
mapping `{ "The": 0.9, "</s>": 0.05 }` is well formed, with two numeric values
in [0, 1]; the handler puts the end-of-sequence token `</s>` unescaped into the
second list item, the parser ignores it as a stray end tag, and the item reads
`: 0.0500` without its token. -/
theorem end_tag_token_not_shown :
    isTokenRecord eosRecord = true ∧
    createSpan sampleHost eosRecord =
      .ok ⟨"The", ⟨"0.9", "\x7b\"The\":0.9,\"</s>\":0.05\x7d"⟩⟩ ∧
    tooltipContent sampleHost ⟨"The", ⟨"0.9", "\x7b\"The\":0.9,\"</s>\":0.05\x7d"⟩⟩ =
      .ok "<strong>Probability:</strong> 0.9000<br><strong>Top 5 Alternatives:</strong><ul><li>The: 0.9000</li><li></s>: 0.0500</li></ul>" ∧
    parseFragment "<strong>Probability:</strong> 0.9000<br><strong>Top 5 Alternatives:</strong><ul><li>The: 0.9000</li><li></s>: 0.0500</li></ul>" =
      some [.element "strong" [] [.text "Probability:"], .text " 0.9000",
        .element "br" [] [], .element "strong" [] [.text "Top 5 Alternatives:"],
        .element "ul" [] [.element "li" [] [.text "The: 0.9000"],
          .element "li" [] [.text ": 0.0500"]]] ∧
    ¬ ("</s>".data <:+: (Dom.textContent (.element "li" [] [.text ": 0.0500"])).data) := by
  refine ⟨by decide!, by decide!, by decide!, by rfl, by decide⟩

/-- C8, amended: for a token record with probability p in [0, 1] and a `top_5`
mapping of k entries (any k, so also 0 ≤ k ≤ 5) whose tokens have none of the
characters `<`, `&`, U+0000 and U+000D and whose values are probabilities in
[0, 1], on a host whose `parseFloat` and `JSON.parse` read back the number and
the JSON text that were stored on the span, a mousemove on the span writes to
the tooltip a content that shows p with exactly four digits after the decimal
point, followed by a list of exactly k items, one per entry of `top_5` in its
order, each showing the token and its probability with exactly four digits
after the decimal point. -/
theorem tooltip_shows_four_decimals (env : Builtins) (tokenData : Json) (token : String)
    (p : ℚ) (top5 : List (String × ℚ))
    (htoken : getProp (some tokenData) "token" = .ok (some (.str token)))
    (hprobability : getProp (some tokenData) "probability" = .ok (some (.num p)))
    (htop5 : getProp (some tokenData) "top_5" = .ok (some (alternativesJson top5)))
    (hp0 : 0 ≤ p) (hp1 : p ≤ 1)
    (hvalues : ∀ kv ∈ top5, 0 ≤ kv.2 ∧ kv.2 ≤ 1)
    (hplain : ∀ kv ∈ top5, plainText kv.1 = true)
    (hfloat : env.parseFloat (env.numberToString p) = some p)
    (hjson : env.jsonParse (env.jsonStringify (alternativesJson top5))
      = .ok (alternativesJson top5)) :
    ∃ span content, createSpan env tokenData = .ok span ∧
      tooltipContent env span = .ok content ∧
      (∀ (e : MouseEvent) (tooltip : Tooltip),
        (spanMousemove env span e tooltip).map Tooltip.innerHTML = .ok content) ∧
      parseFragment content =
        some [.element "strong" [] [.text "Probability:"], .text (" " ++ toFixed env p 4),
          .element "br" [] [], .element "strong" [] [.text "Top 5 Alternatives:"],
          .element "ul" []
            (top5.map (fun kv =>
              Dom.element "li" [] [.text (kv.1 ++ ": " ++ toFixed env kv.2 4)]))] ∧
      (top5.map (fun kv =>
          Dom.element "li" [] [.text (kv.1 ++ ": " ++ toFixed env kv.2 4)])).length
        = top5.length ∧
      fourDecimals (toFixed env p 4) = true ∧
      ∀ kv ∈ top5, fourDecimals (toFixed env kv.2 4) = true := by
  have hunit : ∀ x : ℚ, 0 ≤ x → x ≤ 1 → fourDecimals (toFixed env x 4) = true := by
    intro x h0 h1
    apply fourDecimals_toFixed
    rw [abs_of_nonneg h0]
    exact lt_of_le_of_lt h1 (by norm_num)
  have hcontent : tooltipContent env
      ⟨token, ⟨env.numberToString p, env.jsonStringify (alternativesJson top5)⟩⟩ =
      .ok ("<strong>Probability:</strong> " ++ toFixed env p 4 ++ "<br>" ++
        "<strong>Top 5 Alternatives:</strong><ul>" ++
        String.join ((top5.map (fun kv => kv.1 ++ ": " ++ toFixed env kv.2 4)).map
          (fun t => "<li>" ++ t ++ "</li>")) ++ "</ul>") := by
    simp only [tooltipContent, parseFloatToFixed, hfloat, hjson]
    simp only [alternativesJson, objectEntries, appendAlternatives_numeric, List.map_map]
    congr 4
  refine ⟨⟨token, ⟨env.numberToString p, env.jsonStringify (alternativesJson top5)⟩⟩, _,
    ?_, hcontent, ?_, ?_, ?_, hunit p hp0 hp1, ?_⟩
  · simp only [createSpan, htoken, hprobability, htop5, textContentOf, toStrOpt, toStr,
      stringifyOpt]
  · intro e tooltip
    unfold spanMousemove
    rw [hcontent]
    rfl
  · rw [parseFragment_tooltip (toFixed env p 4)
      (top5.map (fun kv => kv.1 ++ ": " ++ toFixed env kv.2 4))
      (plainText_of_fourDecimals _ (hunit p hp0 hp1))]
    · simp only [List.map_map]
      rfl
    · intro t ht
      obtain ⟨kv, hkv, rfl⟩ := List.mem_map.mp ht
      exact plainText_append _ _ (plainText_append _ _ (hplain kv hkv) (by decide))
        (plainText_of_fourDecimals _ (hunit kv.2 (hvalues kv hkv).1 (hvalues kv hkv).2))
    · intro t ht
      obtain ⟨kv, hkv, rfl⟩ := List.mem_map.mp ht
      intro hempty
      have := congrArg String.length hempty
      simp only [String.length_append] at this
      have h2 : (": " : String).length = 2 := by decide
      have h0 : ("" : String).length = 0 := rfl
      omega
  · simp
  · intro kv hkv
    exact hunit kv.2 (hvalues kv hkv).1 (hvalues kv hkv).2

/-- C8 witness: the first record of the scenario, probability 0.9 with
`top_5` `{ "The": 0.9, "A": 0.05 }`, shows `Probability: 0.9000` and the two
alternatives `The: 0.9000` and `A: 0.0500`. -/
theorem tooltip_shows_four_decimals_witness :
    (∃ span content, createSpan sampleHost theRecord = .ok span ∧
      tooltipContent sampleHost span = .ok content ∧
      (∀ (e : MouseEvent) (tooltip : Tooltip),
        (spanMousemove sampleHost span e tooltip).map Tooltip.innerHTML = .ok content) ∧
      parseFragment content =
        some [.element "strong" [] [.text "Probability:"],
          .text (" " ++ toFixed sampleHost num0_9 4),
          .element "br" [] [], .element "strong" [] [.text "Top 5 Alternatives:"],
          .element "ul" []
            ([("The", num0_9), ("A", num0_05)].map (fun kv =>
              Dom.element "li" [] [.text (kv.1 ++ ": " ++ toFixed sampleHost kv.2 4)]))] ∧
      ([("The", num0_9), ("A", num0_05)].map (fun kv =>
          Dom.element "li" [] [.text (kv.1 ++ ": " ++ toFixed sampleHost kv.2 4)])).length
        = [("The", num0_9), ("A", num0_05)].length ∧
      fourDecimals (toFixed sampleHost num0_9 4) = true ∧
      ∀ kv ∈ [("The", num0_9), ("A", num0_05)],
        fourDecimals (toFixed sampleHost kv.2 4) = true) ∧
    tooltipContent sampleHost ⟨"The", ⟨"0.9", "\x7b\"The\":0.9,\"A\":0.05\x7d"⟩⟩ =
      .ok "<strong>Probability:</strong> 0.9000<br><strong>Top 5 Alternatives:</strong><ul><li>The: 0.9000</li><li>A: 0.0500</li></ul>" ∧
    parseFragment "<strong>Probability:</strong> 0.9000<br><strong>Top 5 Alternatives:</strong><ul><li>The: 0.9000</li><li>A: 0.0500</li></ul>" =
      some [.element "strong" [] [.text "Probability:"], .text " 0.9000",
        .element "br" [] [], .element "strong" [] [.text "Top 5 Alternatives:"],
        .element "ul" [] [.element "li" [] [.text "The: 0.9000"],
          .element "li" [] [.text "A: 0.0500"]]] :=
  ⟨tooltip_shows_four_decimals sampleHost theRecord "The" num0_9
      [("The", num0_9), ("A", num0_05)]
      (by rfl) (by rfl) (by rfl) (by norm_num [num0_9]) (by norm_num [num0_9])
      (by
        intro kv hkv
        simp only [List.mem_cons, List.mem_singleton, List.not_mem_nil, or_false] at hkv
        rcases hkv with rfl | rfl <;> norm_num [num0_9, num0_05])
      (by
        intro kv hkv
        simp only [List.mem_cons, List.mem_singleton, List.not_mem_nil, or_false] at hkv
        rcases hkv with rfl | rfl <;> decide)
      (by decide!) (by rfl),
   by decide!, by rfl⟩

/-- C10: on the tooltip, hiding twice gives the same state as hiding once,
hiding leaves the content unchanged and the tooltip hidden; for every span and
pointer position,
showing twice in succession gives the same state as showing once; and when the
span's content builds, that state is visible, holds that content and is
positioned at (x + 10, y + 10). -/
theorem tooltip_show_hide (env : Builtins) (span : Span) (e : MouseEvent) (tooltip : Tooltip) :
    spanMouseout (spanMouseout tooltip) = spanMouseout tooltip ∧
    (spanMouseout tooltip).innerHTML = tooltip.innerHTML ∧
    (spanMouseout tooltip).hidden = true ∧
    showTooltip env span e (showTooltip env span e tooltip) = showTooltip env span e tooltip ∧
    (∀ content, tooltipContent env span = .ok content →
      showTooltip env span e tooltip =
        { innerHTML := content, hidden := false,
          left := toString (e.pageX + 10) ++ "px", top := toString (e.pageY + 10) ++ "px" }) := by
  refine ⟨rfl, rfl, rfl, ?_, ?_⟩
  · unfold showTooltip spanMousemove
    cases h : tooltipContent env span with
    | error err => simp [h]
    | ok content => simp [h]
  · intro content h
    unfold showTooltip spanMousemove
    simp [h]

/-- C10 witness: hovering the first span of the scenario at (100, 200), once and twice. -/
theorem tooltip_show_hide_witness :
    showTooltip sampleHost ⟨"The", ⟨"0.9", "\x7b\"The\":0.9,\"A\":0.05\x7d"⟩⟩ ⟨100, 200⟩
      (showTooltip sampleHost ⟨"The", ⟨"0.9", "\x7b\"The\":0.9,\"A\":0.05\x7d"⟩⟩ ⟨100, 200⟩
        (idlePage "").tooltip) =
      { innerHTML := "<strong>Probability:</strong> 0.9000<br><strong>Top 5 Alternatives:</strong><ul><li>The: 0.9000</li><li>A: 0.0500</li></ul>",
        hidden := false, left := "110px", top := "210px" } :=
  ((tooltip_show_hide sampleHost ⟨"The", ⟨"0.9", "\x7b\"The\":0.9,\"A\":0.05\x7d"⟩⟩ ⟨100, 200⟩
      (idlePage "").tooltip).2.2.2.1).trans
    ((tooltip_show_hide sampleHost ⟨"The", ⟨"0.9", "\x7b\"The\":0.9,\"A\":0.05\x7d"⟩⟩ ⟨100, 200⟩
      (idlePage "").tooltip).2.2.2.2 _ (by decide!))

end LLMProbabilities
